import Mathlib

/-!
Verification of the Fivetran sync-orchestration module (`src/file.py`).

The module is shallowly embedded as pure Lean functions: each HTTP
interaction is a value describing what the remote side produced, and the
orchestration method `__call__` is a function from an environment (the
queued responses) to the trace of observable events it performs plus the
outcome of the run.  The unbounded `while True` polling loop is modelled
with the finite list of poll responses as fuel: exhausting the list
yields the distinguished outcome `stillPolling`, meaning the loop has
not terminated yet.  Both HTTP operations are fallible: the status read
can raise a transport or protocol error, and the pause-state mutation
can raise on a network failure of the PATCH request or on the
JSON-decode of a non-200 response body inside its error branch.
-/

namespace Fivetran

/-- Exceptions a status read can raise: `transport` covers a network
failure from `requests.get` (payload `none`) and the `HTTPError` raised by
`resp.raise_for_status()` (payload `some code`); `protocol` covers the
`KeyError` from `resp.json()["data"]["status"]["sync_state"]` when the
field is absent. -/
inductive ApiError where
  | transport (code : Option Nat)
  | protocol
deriving DecidableEq, Repr

/-- What the wire produced for one `requests.get` on
`/connections/{id}`: either a network failure, or a response with its
HTTP status code and the value found at `data.status.sync_state` in the
body (`none` when that path is absent). -/
inductive GetResult where
  | netFail
  | response (status_code : Nat) (sync_state : Option String)
deriving DecidableEq, Repr

/-- `get_sync_status` (src/file.py lines 76-90): `requests.get`, then
`resp.raise_for_status()` — which raises exactly for status codes in
[400, 600) — then extraction of `data.status.sync_state`. -/
def get_sync_status : GetResult → Except ApiError String
  | .netFail => .error (.transport none)
  | .response code body =>
    if 400 ≤ code ∧ code < 600 then .error (.transport (some code))
    else
      match body with
      | some s => .ok s
      | none => .error .protocol

/-- What the wire produced for one `requests.patch` on
`/connectors/{id}`: either a network failure (on which `requests.patch`
itself raises), or a response with its HTTP status code and its body —
`some j` when the body is valid JSON whose printed form is `j` (what
`response.json()` returns), `none` when the body is not valid JSON (then
`response.json()` raises). -/
inductive PatchResult where
  | netFail
  | response (status_code : Nat) (json : Option String)
deriving DecidableEq, Repr

/-- Outcome recorded by `set_connector_paused_status` when it returns:
the success print, or the error print carrying the response status code
and the printed `response.json()` body. -/
inductive MutOutcome where
  | success (paused : Bool)
  | remoteError (status_code : Nat) (body : String)
deriving DecidableEq, Repr

/-- Exceptions `set_connector_paused_status` can raise: the network
failure raised by `requests.patch` itself, and the JSON-decode error
raised by `print(response.json())` (src/file.py line 117) when a
non-200 response body is not valid JSON. -/
inductive MutError where
  | patchTransport
  | jsonDecode (status_code : Nat)
deriving DecidableEq, Repr

/-- `set_connector_paused_status` (src/file.py lines 92-117): issues the
PATCH — raising on network failure — then branches on
`response.status_code == 200`.  On 200 it prints success without
reading the body; otherwise it prints the error line and then
`print(response.json())`, which raises when the body is not valid JSON
and otherwise yields the recorded error outcome. -/
def set_connector_paused_status (status_paused : Bool) (response : PatchResult) :
    Except MutError MutOutcome :=
  match response with
  | .netFail => .error .patchTransport
  | .response code body =>
    if code = 200 then .ok (.success status_paused)
    else
      match body with
      | some j => .ok (.remoteError code j)
      | none => .error (.jsonDecode code)

/-- The static dict literal in `__init__` (src/file.py lines 28-34)
mapping each logical connector name to its Fivetran connector id. -/
def CONNECTOR_MAP : List (String × String) :=
  [("sherwood_palsql", "tidy_interval"),
   ("fsq_labworks", "intensive_usefulness"),
   ("hubspot", "embarkation_cropped"),
   ("tulare_soiltestvtaglab", "shucking_fresco"),
   ("netsuite_suiteanalytics", "decayed_neat")]

/-- The `KeyError` raised by the dict subscript in `__init__` when the
logical name is absent from the mapping. -/
inductive InitError where
  | configurationError
deriving DecidableEq, Repr

deriving instance DecidableEq for Except

/-- Observable events of a run, in the order they happen: a status read
together with its result, a pause-state mutation together with its
result (the recorded outcome, or the exception it raised), or a
`time.sleep` of the given number of seconds. -/
inductive Event where
  | getStatus (result : Except ApiError String)
  | setPaused (paused : Bool) (result : Except MutError MutOutcome)
  | sleep (seconds : Nat)
deriving DecidableEq, Repr

/-- `__init__` (src/file.py lines 17-34): resolves the logical name
through the dict literal.  `__init__` performs no control-plane HTTP
call — it only reads secrets and subscripts the dict — hence the event
trace of construction is always empty. -/
def FivetranAPI_init (CONNECTOR_NAME : String) : List Event × Except InitError String :=
  ([],
   match CONNECTOR_MAP.lookup CONNECTOR_NAME with
   | some cid => .ok cid
   | none => .error .configurationError)

/-- Result of the `while True` polling loop: it broke out on a
non-syncing status, a status read raised, or the queued responses ran
out while the status was still `syncing` (the loop would keep going). -/
inductive PollResult where
  | finished (status : String)
  | failed (e : ApiError)
  | exhausted
deriving DecidableEq, Repr

/-- The `while True` loop of `__call__` (src/file.py lines 53-59): read
the status; on an exception propagate it; if the status is not in
`["syncing"]` break with it; otherwise sleep 30 seconds and loop. -/
def pollLoop : List GetResult → List Event × PollResult
  | [] => ([], .exhausted)
  | r :: rest =>
    match get_sync_status r with
    | .error e => ([.getStatus (.error e)], .failed e)
    | .ok status =>
      if status ∈ (["syncing"] : List String) then
        let next := pollLoop rest
        (.getStatus (.ok status) :: .sleep 30 :: next.1, next.2)
      else
        ([.getStatus (.ok status)], .finished status)

/-- The remote side of one run: the response to the initial status read,
the queued responses to the polling reads, and the results of the
unpause and pause PATCH calls. -/
structure Env where
  initGet : GetResult
  polls : List GetResult
  unpauseResponse : PatchResult
  pauseResponse : PatchResult

/-- Concrete environment with explicit PATCH results. -/
def envRunP (g : GetResult) (polls : List GetResult) (u p : PatchResult) : Env :=
  { initGet := g, polls := polls, unpauseResponse := u, pauseResponse := p }

/-- Concrete environment whose two PATCH calls are acknowledged with a
200 response carrying a JSON body. -/
def envRun (g : GetResult) (polls : List GetResult) : Env :=
  envRunP g polls (.response 200 (some "ack")) (.response 200 (some "ack"))

/-- `env` with its two PATCH results replaced. -/
def withPatches (env : Env) (u p : PatchResult) : Env :=
  { env with unpauseResponse := u, pauseResponse := p }

/-- How a run of `__call__` ends: reaching the final
`print("Start your pipeline!")` with the terminal status recorded; an
unhandled status-read exception aborting the run; an unhandled
exception from a pause-state mutation aborting the run; or the loop
still polling when the queued responses ran out. -/
inductive Outcome where
  | done (finalStatus : String)
  | aborted (e : ApiError)
  | abortedPatch (e : MutError)
  | stillPolling
deriving DecidableEq, Repr

/-- The tail of `__call__` after the initial-status branch (src/file.py
lines 50-64): the polling loop, then the unconditional re-pause — whose
exception, if any, propagates before the final print is reached. -/
def finishRun (env : Env) (preamble : List Event) : List Event × Outcome :=
  match pollLoop env.polls with
  | (tr, .finished s) =>
    match set_connector_paused_status true env.pauseResponse with
    | .ok mo => (preamble ++ tr ++ [.setPaused true (.ok mo)], .done s)
    | .error me => (preamble ++ tr ++ [.setPaused true (.error me)], .abortedPatch me)
  | (tr, .failed e) => (preamble ++ tr, .aborted e)
  | (tr, .exhausted) => (preamble ++ tr, .stillPolling)

/-- `__call__` (src/file.py lines 36-64): initial status read; unpause
iff it equals `'paused'` — an exception from that unpause propagates
immediately — then the unconditional `time.sleep(15)`, the polling
loop, and the unconditional re-pause. -/
def call (env : Env) : List Event × Outcome :=
  match get_sync_status env.initGet with
  | .error e => ([.getStatus (.error e)], .aborted e)
  | .ok status0 =>
    if status0 = "paused" then
      match set_connector_paused_status false env.unpauseResponse with
      | .ok mo =>
        finishRun env
          [.getStatus (.ok status0), .setPaused false (.ok mo), .sleep 15]
      | .error me =>
        ([.getStatus (.ok status0), .setPaused false (.error me)], .abortedPatch me)
    else
      finishRun env [.getStatus (.ok status0), .sleep 15]

/-- Number of status-read events in a trace. -/
def countGetStatus (tr : List Event) : Nat :=
  tr.countP (fun e => match e with | .getStatus _ => true | _ => false)

/-- Number of pause-state mutations with the given direction in a
trace (`true` = pause, `false` = unpause). -/
def countSetPaused (b : Bool) (tr : List Event) : Nat :=
  tr.countP (fun e => match e with | .setPaused p _ => p == b | _ => false)

/-- The polling loop emits only status reads and sleeps: no pause-state
mutation ever appears in its trace. -/
lemma countSetPaused_pollLoop (b : Bool) (polls : List GetResult) :
    countSetPaused b (pollLoop polls).1 = 0 := by
  induction polls with
  | nil => simp [pollLoop, countSetPaused]
  | cons r rest ih =>
    cases hr : get_sync_status r with
    | error e => simp [pollLoop, hr, countSetPaused]
    | ok status =>
      by_cases hs : status = "syncing"
      · simpa [pollLoop, hr, hs, countSetPaused, List.countP_cons] using ih
      · simp [pollLoop, hr, hs, countSetPaused]

/-- When the polling loop breaks out with a status, its last event is the
status read that returned that status, and the status is not `syncing`. -/
lemma pollLoop_finished (polls : List GetResult) (s : String)
    (h : (pollLoop polls).2 = .finished s) :
    ∃ tr₁, (pollLoop polls).1 = tr₁ ++ [Event.getStatus (.ok s)] ∧ s ≠ "syncing" := by
  induction polls with
  | nil => simp [pollLoop] at h
  | cons r rest ih =>
    cases hr : get_sync_status r with
    | error e => simp [pollLoop, hr] at h
    | ok status =>
      by_cases hs : status = "syncing"
      · rw [show (pollLoop (r :: rest)).2 = (pollLoop rest).2 by simp [pollLoop, hr, hs]] at h
        obtain ⟨tr₁, htr, hne⟩ := ih h
        exact ⟨Event.getStatus (.ok status) :: Event.sleep 30 :: tr₁,
          by simp [pollLoop, hr, hs, htr], hne⟩
      · have hss : status = s := by
          have := h
          simp [pollLoop, hr, hs] at this
          exact this
        subst hss
        exact ⟨[], by simp [pollLoop, hr, hs], hs⟩

/-- `countSetPaused` distributes over trace concatenation. -/
lemma countSetPaused_append (b : Bool) (l₁ l₂ : List Event) :
    countSetPaused b (l₁ ++ l₂) = countSetPaused b l₁ + countSetPaused b l₂ :=
  List.countP_append _ _ _

/-- Shape of `finishRun`: the preamble, the polling trace, then — only
when the loop broke out on a status — the re-pause attempt, whose
result decides between `done` and `abortedPatch`. -/
lemma finishRun_eq (env : Env) (pre : List Event) :
    finishRun env pre =
      (pre ++ (pollLoop env.polls).1 ++
        (match (pollLoop env.polls).2 with
         | .finished _ =>
            [Event.setPaused true (set_connector_paused_status true env.pauseResponse)]
         | _ => []),
       match (pollLoop env.polls).2 with
       | .finished s =>
          match set_connector_paused_status true env.pauseResponse with
          | .ok _ => Outcome.done s
          | .error me => Outcome.abortedPatch me
       | .failed e => Outcome.aborted e
       | .exhausted => Outcome.stillPolling) := by
  cases hp : pollLoop env.polls with
  | mk ptr pres =>
    cases pres with
    | finished s =>
      cases hm : set_connector_paused_status true env.pauseResponse with
      | ok mo => simp [finishRun, hp, hm]
      | error me => simp [finishRun, hp, hm]
    | failed e => simp [finishRun, hp]
    | exhausted => simp [finishRun, hp]

/-- A run whose initial read returns a non-`'paused'` status goes
straight to the sleep and the rest of the run. -/
lemma call_eq_nonpaused (env : Env) (s0 : String)
    (h0 : get_sync_status env.initGet = .ok s0) (hne : s0 ≠ "paused") :
    call env = finishRun env [Event.getStatus (.ok s0), Event.sleep 15] := by
  simp [call, h0, hne]

/-- A run whose initial read returns `'paused'` and whose unpause call
returns an outcome records the unpause and continues. -/
lemma call_eq_paused_ok (env : Env) (mo : MutOutcome)
    (h0 : get_sync_status env.initGet = .ok "paused")
    (hm : set_connector_paused_status false env.unpauseResponse = .ok mo) :
    call env = finishRun env
      [Event.getStatus (.ok "paused"), Event.setPaused false (.ok mo),
       Event.sleep 15] := by
  simp [call, h0, hm]

/-- A run whose initial read returns `'paused'` and whose unpause call
raises aborts right there: no sleep, no poll, no re-pause. -/
lemma call_eq_paused_err (env : Env) (me : MutError)
    (h0 : get_sync_status env.initGet = .ok "paused")
    (hm : set_connector_paused_status false env.unpauseResponse = .error me) :
    call env = ([Event.getStatus (.ok "paused"), Event.setPaused false (.error me)],
      .abortedPatch me) := by
  simp [call, h0, hm]

/-- A `finishRun` that reaches `done` broke out of the loop on that
status, and its trace is the preamble, the polling trace, and the
returning re-pause. -/
lemma finishRun_done (env : Env) (pre tr : List Event) (s : String)
    (h : finishRun env pre = (tr, .done s)) :
    (pollLoop env.polls).2 = .finished s ∧
    tr = pre ++ (pollLoop env.polls).1 ++
      [Event.setPaused true (set_connector_paused_status true env.pauseResponse)] := by
  rw [finishRun_eq] at h
  cases hres : (pollLoop env.polls).2 with
  | failed e => rw [hres] at h; simp at h
  | exhausted => rw [hres] at h; simp at h
  | finished s' =>
    rw [hres] at h
    cases hm : set_connector_paused_status true env.pauseResponse with
    | error me => rw [hm] at h; simp at h
    | ok mo =>
      rw [hm] at h
      simp only [Prod.mk.injEq, Outcome.done.injEq] at h
      obtain ⟨htr, hss⟩ := h
      rw [hss]
      exact ⟨rfl, htr.symm⟩

/-- When the re-pause call returns an outcome (of either kind), the
outcome of `finishRun` depends only on the polling result. -/
lemma finishRun_outcome_ok (env : Env) (pre : List Event) (mo : MutOutcome)
    (hm : set_connector_paused_status true env.pauseResponse = .ok mo) :
    (finishRun env pre).2 =
      (match (pollLoop env.polls).2 with
       | .finished s => Outcome.done s
       | .failed e => Outcome.aborted e
       | .exhausted => Outcome.stillPolling) := by
  rw [finishRun_eq]
  cases hres : (pollLoop env.polls).2 with
  | finished s => simp [hres, hm]
  | failed e => simp [hres]
  | exhausted => simp [hres]

/-- Every run reaching `done` goes through `finishRun` with a
pause-free preamble, broke out of the loop on the recorded status, and
ends with the returning re-pause. -/
lemma call_done_shape (env : Env) (tr : List Event) (s : String)
    (h : call env = (tr, .done s)) :
    ∃ pre, countSetPaused true pre = 0 ∧
      (pollLoop env.polls).2 = .finished s ∧
      tr = pre ++ (pollLoop env.polls).1 ++
        [Event.setPaused true (set_connector_paused_status true env.pauseResponse)] := by
  cases h0 : get_sync_status env.initGet with
  | error e => simp [call, h0] at h
  | ok s0 =>
    by_cases hp : s0 = "paused"
    · subst hp
      cases hm : set_connector_paused_status false env.unpauseResponse with
      | error me =>
        rw [call_eq_paused_err env me h0 hm] at h
        simp at h
      | ok mo =>
        rw [call_eq_paused_ok env mo h0 hm] at h
        obtain ⟨hres, htr⟩ := finishRun_done env _ tr s h
        exact ⟨_, by simp [countSetPaused, List.countP_cons], hres, htr⟩
    · rw [call_eq_nonpaused env s0 h0 hp] at h
      obtain ⟨hres, htr⟩ := finishRun_done env _ tr s h
      exact ⟨_, by simp [countSetPaused, List.countP_cons], hres, htr⟩

/-- Claim C1: if the first `k` queued poll responses all yield status
`syncing` and response `k` yields a status `s` different from `syncing`,
the polling loop terminates exactly there: it returns `finished s`, its
trace ends with the status read that returned `s`, and exactly `k`
status reads precede that final one — so every `syncing` poll is
followed by another poll and no status query happens after the first
non-`syncing` status. -/
theorem polling_stops_at_first_terminal (polls : List GetResult) (k : Nat)
    (hk : k < polls.length)
    (hsync : ∀ x ∈ polls.take k, get_sync_status x = .ok "syncing")
    (s : String) (hs : s ≠ "syncing")
    (hterm : get_sync_status (polls.get ⟨k, hk⟩) = .ok s) :
    (pollLoop polls).2 = .finished s ∧
    ∃ tr₁, (pollLoop polls).1 = tr₁ ++ [Event.getStatus (.ok s)] ∧
      countGetStatus tr₁ = k := by
  induction polls generalizing k with
  | nil => simp at hk
  | cons r rest ih =>
    cases k with
    | zero =>
      have hr : get_sync_status r = .ok s := hterm
      exact ⟨by simp [pollLoop, hr, hs],
        [], by simp [pollLoop, hr, hs], by simp [countGetStatus]⟩
    | succ k =>
      have hr : get_sync_status r = .ok "syncing" := by
        apply hsync
        simp [List.take]
      have hk' : k < rest.length := by simpa using hk
      have hsync' : ∀ x ∈ rest.take k, get_sync_status x = .ok "syncing" := by
        intro x hx
        exact hsync x (by simp [List.take, hx])
      have hterm' : get_sync_status (rest.get ⟨k, hk'⟩) = .ok s := hterm
      obtain ⟨h2, tr₁, htr, hcount⟩ := ih k hk' hsync' hterm'
      refine ⟨by simp [pollLoop, hr, h2],
        Event.getStatus (.ok "syncing") :: Event.sleep 30 :: tr₁,
        by simp [pollLoop, hr, htr], ?_⟩
      simp [countGetStatus, List.countP_cons] at hcount ⊢
      omega

/-- Witness for C1 at a concrete two-response queue: one `syncing` poll
followed by a `paused` poll terminates the loop after exactly two
status reads. -/
theorem polling_stops_at_first_terminal_witness :
    (pollLoop [GetResult.response 200 (some "syncing"),
        GetResult.response 200 (some "paused")]).2 = PollResult.finished "paused" ∧
    ∃ tr₁, (pollLoop [GetResult.response 200 (some "syncing"),
        GetResult.response 200 (some "paused")]).1 =
        tr₁ ++ [Event.getStatus (.ok "paused")] ∧ countGetStatus tr₁ = 1 :=
  polling_stops_at_first_terminal
    [GetResult.response 200 (some "syncing"), GetResult.response 200 (some "paused")]
    1 (by decide) (by decide) "paused" (by decide) (by decide)

/-- Claim C2: every run that reaches `Done` issues the pause mutation
exactly once; the pause event is the last event of the trace, placed
immediately after the status read that returned the terminal
(non-`syncing`) status, and no pause is issued anywhere earlier — this
holds for every initial status. -/
theorem pause_once_after_terminal (env : Env) (tr : List Event) (s : String)
    (h : call env = (tr, .done s)) :
    countSetPaused true tr = 1 ∧
    ∃ tr₁, tr = tr₁ ++ [Event.getStatus (.ok s),
        Event.setPaused true (set_connector_paused_status true env.pauseResponse)] ∧
      s ≠ "syncing" ∧ countSetPaused true tr₁ = 0 := by
  obtain ⟨pre, hpre0, hres, htr⟩ := call_done_shape env tr s h
  obtain ⟨tr₁, hptr, hne⟩ := pollLoop_finished env.polls s hres
  have hcount0 : countSetPaused true tr₁ = 0 := by
    have hall := countSetPaused_pollLoop true env.polls
    rw [hptr, countSetPaused_append] at hall
    omega
  refine ⟨?_, pre ++ tr₁, ?_, hne, ?_⟩
  · rw [htr, hptr]
    simp only [countSetPaused_append, hpre0, hcount0]
    simp [countSetPaused]
  · rw [htr, hptr]
    simp
  · simp only [countSetPaused_append, hpre0, hcount0]

/-- Witness for C2 on a concrete completed run with a non-paused initial
status: the pause mutation appears exactly once, as the final event. -/
theorem pause_once_after_terminal_witness :
    countSetPaused true
      [Event.getStatus (.ok "rescheduled"), Event.sleep 15,
       Event.getStatus (.ok "paused"),
       Event.setPaused true
         (set_connector_paused_status true (PatchResult.response 200 (some "ack")))] = 1 ∧
    ∃ tr₁, [Event.getStatus (.ok "rescheduled"), Event.sleep 15,
       Event.getStatus (.ok "paused"),
       Event.setPaused true
         (set_connector_paused_status true (PatchResult.response 200 (some "ack")))] =
        tr₁ ++ [Event.getStatus (.ok "paused"),
          Event.setPaused true
            (set_connector_paused_status true (PatchResult.response 200 (some "ack")))] ∧
      "paused" ≠ "syncing" ∧ countSetPaused true tr₁ = 0 :=
  pause_once_after_terminal
    (envRun (GetResult.response 200 (some "rescheduled"))
      [GetResult.response 200 (some "paused")])
    [Event.getStatus (.ok "rescheduled"), Event.sleep 15,
     Event.getStatus (.ok "paused"),
     Event.setPaused true
       (set_connector_paused_status true (PatchResult.response 200 (some "ack")))]
    "paused" rfl

/-- Claim C3: when the initial status read returns `'paused'` the
unpause mutation is issued exactly once, immediately after the initial
read and before the settle sleep and every poll — if it returns, the
sleep and the rest of the run follow it, and no further unpause occurs;
if it raises, the run aborts right there with the unpause as the last
event, still before any poll.  For any other initial status no unpause
mutation is ever issued. -/
theorem unpause_only_when_paused (env : Env) (s0 : String)
    (h0 : get_sync_status env.initGet = .ok s0) :
    (s0 = "paused" →
      (∀ mo, set_connector_paused_status false env.unpauseResponse = .ok mo →
        ∃ rest, (call env).1 =
            Event.getStatus (.ok "paused") ::
            Event.setPaused false (.ok mo) ::
            Event.sleep 15 :: rest ∧
          countSetPaused false rest = 0) ∧
      (∀ me, set_connector_paused_status false env.unpauseResponse = .error me →
        call env = ([Event.getStatus (.ok "paused"),
          Event.setPaused false (.error me)], .abortedPatch me))) ∧
    (s0 ≠ "paused" → countSetPaused false (call env).1 = 0) := by
  constructor
  · intro hp
    subst hp
    constructor
    · intro mo hm
      rw [call_eq_paused_ok env mo h0 hm, finishRun_eq]
      refine ⟨(pollLoop env.polls).1 ++
        (match (pollLoop env.polls).2 with
         | .finished _ =>
            [Event.setPaused true (set_connector_paused_status true env.pauseResponse)]
         | _ => []), by simp, ?_⟩
      rw [countSetPaused_append, countSetPaused_pollLoop]
      cases (pollLoop env.polls).2 <;> simp [countSetPaused]
    · intro me hm
      exact call_eq_paused_err env me h0 hm
  · intro hp
    rw [call_eq_nonpaused env s0 h0 hp, finishRun_eq]
    simp only [countSetPaused_append, countSetPaused_pollLoop]
    cases (pollLoop env.polls).2 <;> simp [countSetPaused]

/-- Witness for C3 at two concrete runs: a `paused` initial status with
an acknowledged unpause yields the single unpause right after the
initial read, and a `rescheduled` initial status yields a trace with no
unpause at all. -/
theorem unpause_only_when_paused_witness :
    (∃ rest, (call (envRun (GetResult.response 200 (some "paused"))
        [GetResult.response 200 (some "rescheduled")])).1 =
        Event.getStatus (.ok "paused") ::
        Event.setPaused false (.ok (.success false)) ::
        Event.sleep 15 :: rest ∧
      countSetPaused false rest = 0) ∧
    countSetPaused false (call (envRun (GetResult.response 200 (some "rescheduled"))
      [GetResult.response 200 (some "rescheduled")])).1 = 0 :=
  ⟨((unpause_only_when_paused
      (envRun (GetResult.response 200 (some "paused"))
        [GetResult.response 200 (some "rescheduled")])
      "paused" rfl).1 rfl).1 (.success false) rfl,
   (unpause_only_when_paused
      (envRun (GetResult.response 200 (some "rescheduled"))
        [GetResult.response 200 (some "rescheduled")])
      "rescheduled" rfl).2 (by decide)⟩

/-- Counterexample to claim C4: a run whose initial status is
`rescheduled` (not `paused`) still performs the 15-second settle sleep
before its first poll — the `time.sleep(15)` at src/file.py line 51 is
unconditional — so the first poll does not happen immediately. -/
theorem nonpaused_settle_delay_counterexample :
    call (envRun (GetResult.response 200 (some "rescheduled"))
        [GetResult.response 200 (some "rescheduled")]) =
      ([Event.getStatus (.ok "rescheduled"), Event.sleep 15,
        Event.getStatus (.ok "rescheduled"),
        Event.setPaused true (.ok (MutOutcome.success true))],
       Outcome.done "rescheduled") ∧
    Event.sleep 15 ∈ (call (envRun (GetResult.response 200 (some "rescheduled"))
        [GetResult.response 200 (some "rescheduled")])).1 :=
  ⟨rfl, by decide⟩

/-- Claim C4 as amended: a completed run whose initial status is not
`paused` issues no unpause mutation and goes straight from the polling
trace to the pause call, but it still incurs the fixed 15-second settle
delay between the initial status read and the first poll, because the
sleep is unconditional. -/
theorem nonpaused_run_still_settles (env : Env) (s0 : String)
    (h0 : get_sync_status env.initGet = .ok s0) (hne : s0 ≠ "paused")
    (tr : List Event) (s : String) (hdone : call env = (tr, .done s)) :
    countSetPaused false tr = 0 ∧
    tr = Event.getStatus (.ok s0) :: Event.sleep 15 ::
      ((pollLoop env.polls).1 ++
        [Event.setPaused true (set_connector_paused_status true env.pauseResponse)]) := by
  rw [call_eq_nonpaused env s0 h0 hne] at hdone
  obtain ⟨hres, htr⟩ := finishRun_done env _ tr s hdone
  constructor
  · rw [htr]
    simp only [countSetPaused_append, countSetPaused_pollLoop]
    simp [countSetPaused]
  · rw [htr]
    simp

/-- Witness for the amended C4 at a concrete run with initial status
`rescheduled`. -/
theorem nonpaused_run_still_settles_witness :
    countSetPaused false
      [Event.getStatus (.ok "rescheduled"), Event.sleep 15,
       Event.getStatus (.ok "paused"),
       Event.setPaused true
         (set_connector_paused_status true (PatchResult.response 200 (some "ack")))] = 0 ∧
    [Event.getStatus (.ok "rescheduled"), Event.sleep 15,
     Event.getStatus (.ok "paused"),
     Event.setPaused true
       (set_connector_paused_status true (PatchResult.response 200 (some "ack")))] =
      Event.getStatus (.ok "rescheduled") :: Event.sleep 15 ::
        ((pollLoop [GetResult.response 200 (some "paused")]).1 ++
          [Event.setPaused true
            (set_connector_paused_status true (PatchResult.response 200 (some "ack")))]) :=
  nonpaused_run_still_settles
    (envRun (GetResult.response 200 (some "rescheduled"))
      [GetResult.response 200 (some "paused")])
    "rescheduled" rfl (by decide)
    [Event.getStatus (.ok "rescheduled"), Event.sleep 15,
     Event.getStatus (.ok "paused"),
     Event.setPaused true
       (set_connector_paused_status true (PatchResult.response 200 (some "ack")))]
    "paused" rfl

/-- Claim C5: in a run that reaches the polling phase (its initial
status was not `'paused'`, or the unpause call returned), a poll-phase
status read that raises a transport or protocol error makes the run
abort with that error — reporting failure, not `Done` — and no pause
mutation appears anywhere in its trace. -/
theorem poll_failure_aborts_without_pause (env : Env) (s0 : String) (e : ApiError)
    (h0 : get_sync_status env.initGet = .ok s0)
    (hreach : s0 ≠ "paused" ∨
      ∃ mo, set_connector_paused_status false env.unpauseResponse = .ok mo)
    (hf : (pollLoop env.polls).2 = .failed e) :
    (call env).2 = .aborted e ∧ countSetPaused true (call env).1 = 0 := by
  have hcall : ∃ pre, call env = finishRun env pre ∧ countSetPaused true pre = 0 := by
    rcases hreach with hne | ⟨mo, hm⟩
    · exact ⟨_, call_eq_nonpaused env s0 h0 hne,
        by simp [countSetPaused, List.countP_cons]⟩
    · by_cases hp : s0 = "paused"
      · subst hp
        exact ⟨_, call_eq_paused_ok env mo h0 hm,
          by simp [countSetPaused, List.countP_cons]⟩
      · exact ⟨_, call_eq_nonpaused env s0 h0 hp,
          by simp [countSetPaused, List.countP_cons]⟩
  obtain ⟨pre, hc, hpre⟩ := hcall
  rw [hc, finishRun_eq, hf]
  refine ⟨rfl, ?_⟩
  simp only [countSetPaused_append, hpre, countSetPaused_pollLoop]
  simp [countSetPaused]

/-- Witness for C5: a run that starts `'paused'`, unpauses with an
acknowledged PATCH, and whose second poll is a network failure aborts
with a transport error and never pauses. -/
theorem poll_failure_aborts_without_pause_witness :
    (call (envRun (GetResult.response 200 (some "paused"))
        [GetResult.response 200 (some "syncing"), GetResult.netFail])).2 =
      .aborted (.transport none) ∧
    countSetPaused true
      (call (envRun (GetResult.response 200 (some "paused"))
        [GetResult.response 200 (some "syncing"), GetResult.netFail])).1 = 0 :=
  poll_failure_aborts_without_pause
    (envRun (GetResult.response 200 (some "paused"))
      [GetResult.response 200 (some "syncing"), GetResult.netFail])
    "paused" (.transport none) rfl (Or.inr ⟨.success false, rfl⟩) rfl

/-- Counterexample to claim C6: the mutation reports success only on
status code exactly 200, not on every 2xx response (a 204 with a JSON
body is recorded as an error outcome); and it can raise — a non-200
response whose body is not valid JSON makes the error branch's
`print(response.json())` raise — after which the run aborts instead of
proceeding to `Done`. -/
theorem mutation_2xx_counterexample :
    set_connector_paused_status true (PatchResult.response 204 (some "no content")) =
      .ok (.remoteError 204 "no content") ∧
    set_connector_paused_status true (PatchResult.response 204 (some "no content")) ≠
      .ok (.success true) ∧
    set_connector_paused_status true (PatchResult.response 502 none) =
      .error (.jsonDecode 502) ∧
    (call (envRunP (GetResult.response 200 (some "rescheduled"))
        [GetResult.response 200 (some "rescheduled")]
        (PatchResult.response 200 (some "ack"))
        (PatchResult.response 502 none))).2 =
      .abortedPatch (.jsonDecode 502) :=
  ⟨rfl, by decide, rfl, rfl⟩

/-- Claim C6 as amended: the pause/unpause mutation reports success
exactly when the response status code is 200 (without reading the
body); on any other status code whose body is valid JSON it returns a
recorded error outcome carrying the status code and printed body, and —
whenever both PATCH calls return an outcome rather than raising — the
run's final result is the same as if every mutation had succeeded, so a
non-2xx mutation still lets the run reach `Done`.  But the call can
raise: on a network failure of the PATCH request, or on a non-200
response whose body is not valid JSON (the error branch calls
`response.json()`), and such an exception aborts the run. -/
theorem mutation_structured_outcome (status_paused : Bool) (code : Nat) (j : String)
    (env : Env) (r₁ r₂ : PatchResult) (mo₁ mo₂ : MutOutcome) :
    set_connector_paused_status status_paused PatchResult.netFail =
      .error .patchTransport ∧
    (code = 200 → ∀ body, set_connector_paused_status status_paused
        (PatchResult.response code body) = .ok (.success status_paused)) ∧
    (code ≠ 200 → set_connector_paused_status status_paused
        (PatchResult.response code (some j)) = .ok (.remoteError code j)) ∧
    (code ≠ 200 → set_connector_paused_status status_paused
        (PatchResult.response code none) = .error (.jsonDecode code)) ∧
    (set_connector_paused_status false r₁ = .ok mo₁ →
      set_connector_paused_status true r₂ = .ok mo₂ →
      (call (withPatches env r₁ r₂)).2 =
        (call (withPatches env (PatchResult.response 200 (some j))
          (PatchResult.response 200 (some j)))).2) := by
  refine ⟨rfl, ?_, ?_, ?_, ?_⟩
  · intro h body
    simp [set_connector_paused_status, h]
  · intro h
    simp [set_connector_paused_status, h]
  · intro h
    simp [set_connector_paused_status, h]
  · intro hm₁ hm₂
    have hm₁L : set_connector_paused_status false
        (withPatches env r₁ r₂).unpauseResponse = .ok mo₁ := hm₁
    have hm₂L : set_connector_paused_status true
        (withPatches env r₁ r₂).pauseResponse = .ok mo₂ := hm₂
    have hupR : set_connector_paused_status false
        (withPatches env (PatchResult.response 200 (some j))
          (PatchResult.response 200 (some j))).unpauseResponse =
        .ok (.success false) := rfl
    have hpR : set_connector_paused_status true
        (withPatches env (PatchResult.response 200 (some j))
          (PatchResult.response 200 (some j))).pauseResponse =
        .ok (.success true) := rfl
    cases h0 : get_sync_status env.initGet with
    | error e => simp [call, withPatches, h0]
    | ok s0 =>
      by_cases hp : s0 = "paused"
      · subst hp
        rw [call_eq_paused_ok (withPatches env r₁ r₂) mo₁ h0 hm₁L,
          call_eq_paused_ok (withPatches env (PatchResult.response 200 (some j))
            (PatchResult.response 200 (some j))) (MutOutcome.success false) h0 hupR,
          finishRun_outcome_ok (withPatches env r₁ r₂) _ mo₂ hm₂L,
          finishRun_outcome_ok (withPatches env (PatchResult.response 200 (some j))
            (PatchResult.response 200 (some j))) _ (MutOutcome.success true) hpR]
        rfl
      · rw [call_eq_nonpaused (withPatches env r₁ r₂) s0 h0 hp,
          call_eq_nonpaused (withPatches env (PatchResult.response 200 (some j))
            (PatchResult.response 200 (some j))) s0 h0 hp,
          finishRun_outcome_ok (withPatches env r₁ r₂) _ mo₂ hm₂L,
          finishRun_outcome_ok (withPatches env (PatchResult.response 200 (some j))
            (PatchResult.response 200 (some j))) _ (MutOutcome.success true) hpR]
        rfl

/-- Witness for the amended C6: a network failure raises; a 200 with a
non-JSON body still succeeds (the body is never read on success); a 500
with a JSON body is recorded with its code and body; a 500 without
valid JSON raises; and a run whose pause PATCH is answered 404 with a
JSON body ends with the same outcome as the run whose PATCH calls all
return 200. -/
theorem mutation_structured_outcome_witness :
    set_connector_paused_status true PatchResult.netFail =
      .error .patchTransport ∧
    set_connector_paused_status true (PatchResult.response 200 none) =
      .ok (.success true) ∧
    set_connector_paused_status false (PatchResult.response 500 (some "boom")) =
      .ok (.remoteError 500 "boom") ∧
    set_connector_paused_status false (PatchResult.response 500 none) =
      .error (.jsonDecode 500) ∧
    (call (withPatches (envRun (GetResult.response 200 (some "rescheduled"))
        [GetResult.response 200 (some "paused")])
        (PatchResult.response 200 (some "ok"))
        (PatchResult.response 404 (some "err")))).2 =
      (call (withPatches (envRun (GetResult.response 200 (some "rescheduled"))
        [GetResult.response 200 (some "paused")])
        (PatchResult.response 200 (some "ok"))
        (PatchResult.response 200 (some "ok")))).2 :=
  ⟨(mutation_structured_outcome true 200 "ok"
      (envRun (GetResult.response 200 (some "rescheduled"))
        [GetResult.response 200 (some "paused")])
      PatchResult.netFail PatchResult.netFail
      (.success false) (.success true)).1,
   (mutation_structured_outcome true 200 "ok"
      (envRun (GetResult.response 200 (some "rescheduled"))
        [GetResult.response 200 (some "paused")])
      PatchResult.netFail PatchResult.netFail
      (.success false) (.success true)).2.1 rfl none,
   (mutation_structured_outcome false 500 "boom"
      (envRun (GetResult.response 200 (some "rescheduled"))
        [GetResult.response 200 (some "paused")])
      PatchResult.netFail PatchResult.netFail
      (.success false) (.success true)).2.2.1 (by decide),
   (mutation_structured_outcome false 500 "boom"
      (envRun (GetResult.response 200 (some "rescheduled"))
        [GetResult.response 200 (some "paused")])
      PatchResult.netFail PatchResult.netFail
      (.success false) (.success true)).2.2.2.1 (by decide),
   (mutation_structured_outcome true 500 "ok"
      (envRun (GetResult.response 200 (some "rescheduled"))
        [GetResult.response 200 (some "paused")])
      (PatchResult.response 200 (some "ok")) (PatchResult.response 404 (some "err"))
      (.success false) (.remoteError 404 "err")).2.2.2.2 rfl rfl⟩

/-- A successful association-list lookup returns a pair that belongs to
the list. -/
lemma lookup_mem {l : List (String × String)} {a b : String}
    (h : List.lookup a l = some b) : (a, b) ∈ l := by
  induction l with
  | nil => simp [List.lookup] at h
  | cons p rest ih =>
    obtain ⟨k, v⟩ := p
    by_cases hk : a = k
    · subst hk
      simp [List.lookup] at h
      simp [h]
    · have hbeq : (a == k) = false := beq_false_of_ne hk
      simp [List.lookup, hbeq] at h
      simp [ih h]

/-- Claim C7: construction performs no network call (its event trace is
empty for every name); a logical name missing from the static mapping —
such as `"not_a_connector"` — fails with the configuration error; and
every name present in the mapping resolves, to exactly one identifier. -/
theorem connector_name_resolution :
    (∀ name : String, (FivetranAPI_init name).1 = []) ∧
    (FivetranAPI_init "not_a_connector").2 = .error .configurationError ∧
    (∀ name cid, (name, cid) ∈ CONNECTOR_MAP → (FivetranAPI_init name).2 = .ok cid) ∧
    (∀ name : String, (¬ ∃ cid, (name, cid) ∈ CONNECTOR_MAP) →
      (FivetranAPI_init name).2 = .error .configurationError) ∧
    (∀ name cid₁ cid₂, (name, cid₁) ∈ CONNECTOR_MAP → (name, cid₂) ∈ CONNECTOR_MAP →
      cid₁ = cid₂) := by
  have hok : ∀ name cid, (name, cid) ∈ CONNECTOR_MAP →
      (FivetranAPI_init name).2 = .ok cid := by
    intro name cid h
    simp only [CONNECTOR_MAP, List.mem_cons, List.not_mem_nil, or_false,
      Prod.mk.injEq] at h
    rcases h with ⟨rfl, rfl⟩ | ⟨rfl, rfl⟩ | ⟨rfl, rfl⟩ | ⟨rfl, rfl⟩ | ⟨rfl, rfl⟩ <;> rfl
  refine ⟨fun name => rfl, rfl, hok, ?_, ?_⟩
  · intro name hne
    cases hl : List.lookup name CONNECTOR_MAP with
    | none => simp [FivetranAPI_init, hl]
    | some cid => exact absurd ⟨cid, lookup_mem hl⟩ hne
  · intro name cid₁ cid₂ h₁ h₂
    have e₁ := hok name cid₁ h₁
    have e₂ := hok name cid₂ h₂
    rw [e₁] at e₂
    exact Except.ok.inj e₂

/-- Witness for C7: the accepted name `hubspot` resolves with an empty
construction trace, and the unknown name fails. -/
theorem connector_name_resolution_witness :
    (FivetranAPI_init "hubspot").1 = [] ∧
    (FivetranAPI_init "hubspot").2 = .ok "embarkation_cropped" ∧
    (FivetranAPI_init "not_a_connector").2 = .error .configurationError :=
  ⟨connector_name_resolution.1 "hubspot",
   connector_name_resolution.2.2.1 "hubspot" "embarkation_cropped" (by decide),
   connector_name_resolution.2.1⟩

/-- Counterexample to claim C8: `resp.raise_for_status()` raises only
for status codes in [400, 600), so a non-2xx response outside that
range — here a 304 whose body still carries the status field — does not
produce a transport error: the read succeeds. -/
theorem status_read_non2xx_counterexample :
    get_sync_status (GetResult.response 304 (some "paused")) = Except.ok "paused" ∧
    get_sync_status (GetResult.response 304 (some "paused")) ≠
      Except.error (ApiError.transport (some 304)) :=
  ⟨rfl, by decide⟩

/-- Claim C8 as amended: the status read fails with a transport error
on a network failure or on any 4xx/5xx HTTP response (the range
`raise_for_status` raises for), fails with a protocol error when the
response is not 4xx/5xx but the `data.status.sync_state` field is
absent, and returns the status string when the field is present; each
call consumes exactly one HTTP exchange, so there is no internal
retry. -/
theorem status_read_errors (code : Nat) (body : Option String) (s : String) :
    get_sync_status GetResult.netFail = .error (.transport none) ∧
    (400 ≤ code → code < 600 →
      get_sync_status (GetResult.response code body) = .error (.transport (some code))) ∧
    (¬ (400 ≤ code ∧ code < 600) →
      get_sync_status (GetResult.response code none) = .error .protocol) ∧
    (¬ (400 ≤ code ∧ code < 600) →
      get_sync_status (GetResult.response code (some s)) = .ok s) := by
  refine ⟨rfl, ?_, ?_, ?_⟩
  · intro h₁ h₂
    simp [get_sync_status, h₁, h₂]
  · intro h
    simp [get_sync_status, h]
  · intro h
    simp [get_sync_status, h]

/-- Witness for the amended C8 at concrete responses: a 500 response is
a transport error, a 200 response missing the field is a protocol
error, and a 200 response with the field returns it. -/
theorem status_read_errors_witness :
    get_sync_status (GetResult.response 500 (some "x")) =
      .error (.transport (some 500)) ∧
    get_sync_status (GetResult.response 200 none) = .error .protocol ∧
    get_sync_status (GetResult.response 200 (some "syncing")) = .ok "syncing" :=
  ⟨(status_read_errors 500 (some "x") "x").2.1 (by decide) (by decide),
   (status_read_errors 200 none "x").2.2.1 (by decide),
   (status_read_errors 200 (some "syncing") "syncing").2.2.2 (by decide)⟩

/-- Claim C9: whenever the unpause mutation is issued — that is, the
initial status read returned `'paused'` — the 15-second settle sleep
sits directly between the unpause event and the polling trace when the
unpause returns, so the delay elapses before the first poll; and when
the unpause raises, no poll ever happens at all. -/
theorem settle_delay_between_unpause_and_first_poll (env : Env)
    (h0 : get_sync_status env.initGet = .ok "paused") :
    (∀ mo, set_connector_paused_status false env.unpauseResponse = .ok mo →
      ∃ tail, (call env).1 =
        Event.getStatus (.ok "paused") ::
        Event.setPaused false (.ok mo) ::
        Event.sleep 15 :: ((pollLoop env.polls).1 ++ tail)) ∧
    (∀ me, set_connector_paused_status false env.unpauseResponse = .error me →
      (call env).1 = [Event.getStatus (.ok "paused"),
        Event.setPaused false (.error me)]) := by
  constructor
  · intro mo hm
    rw [call_eq_paused_ok env mo h0 hm, finishRun_eq]
    refine ⟨(match (pollLoop env.polls).2 with
      | PollResult.finished _ =>
          [Event.setPaused true (set_connector_paused_status true env.pauseResponse)]
      | _ => []), ?_⟩
    simp
  · intro me hm
    rw [call_eq_paused_err env me h0 hm]

/-- Witness for C9 at a concrete run starting from `'paused'` with an
acknowledged unpause. -/
theorem settle_delay_between_unpause_and_first_poll_witness :
    ∃ tail, (call (envRun (GetResult.response 200 (some "paused"))
        [GetResult.response 200 (some "rescheduled")])).1 =
      Event.getStatus (.ok "paused") ::
      Event.setPaused false (.ok (.success false)) ::
      Event.sleep 15 ::
        ((pollLoop [GetResult.response 200 (some "rescheduled")]).1 ++ tail) :=
  (settle_delay_between_unpause_and_first_poll
    (envRun (GetResult.response 200 (some "paused"))
      [GetResult.response 200 (some "rescheduled")]) rfl).1 (.success false) rfl

/-- Claim C10: when the very first status read raises, the run aborts
with that error immediately: its whole trace is that one failed read,
so neither an unpause nor a pause mutation is ever issued. -/
theorem initial_read_failure_aborts_without_mutation (env : Env) (e : ApiError)
    (h0 : get_sync_status env.initGet = .error e) :
    call env = ([Event.getStatus (.error e)], .aborted e) ∧
    countSetPaused true (call env).1 = 0 ∧
    countSetPaused false (call env).1 = 0 := by
  have hc : call env = ([Event.getStatus (.error e)], .aborted e) := by
    simp [call, h0]
  refine ⟨hc, ?_, ?_⟩
  · rw [hc]
    simp [countSetPaused]
  · rw [hc]
    simp [countSetPaused]

/-- Witness for C10: a network failure on the initial read aborts the
run with no mutation. -/
theorem initial_read_failure_aborts_without_mutation_witness :
    call (envRun GetResult.netFail []) =
      ([Event.getStatus (.error (.transport none))], .aborted (.transport none)) ∧
    countSetPaused true (call (envRun GetResult.netFail [])).1 = 0 ∧
    countSetPaused false (call (envRun GetResult.netFail [])).1 = 0 :=
  initial_read_failure_aborts_without_mutation
    (envRun GetResult.netFail []) (.transport none) rfl

end Fivetran
